import Mathlib

/-!
# pam_usb: one-time pad verification (`src/pad.c`)

A shallow embedding of `pad.c`.  The C functions become Lean functions that pass
an explicit `World` (the files reachable by path, plus a log of the `fopen` calls
made so far).  Everything the C code obtains from outside `pad.c` is a field of
`Env`: the answer of the volume lookup, whether the operating system grants an
`fopen`, `fchown` or `fchmod`, how many bytes a write stores, the password
database, the process id, the clock, the sequence produced by `rand` after
`srand`, and the stale bytes of the two uninitialised stack buffers.

C strings are `String`s (one character per `char`), bytes are natural numbers,
a C truth value is a `Bool`.  A function that can run into undefined behaviour
returns an `Option`: `none` says that the run ended there and nothing was returned;
the world next to it is the state in which that happened.
-/

namespace PamUsb

/-! ## Data model -/

/-- The `device` member of `t_pusb_options` (declared in `conf.h`): only `name` is read. -/
structure t_pusb_device where
  name : String

/-- The members of `t_pusb_options` (declared in `conf.h`) that `pad.c` reads. -/
structure t_pusb_options where
  hostname : String
  system_pad_directory : String
  device_pad_directory : String
  device : t_pusb_device

/-- A HAL volume as far as `pad.c` looks at it: `libhal_volume_get_mount_point`
returns its mount point, or `NULL` when it has none. -/
structure LibHalVolume where
  mount_point : Option String

/-- The `pw_uid` and `pw_gid` members of `struct passwd`. -/
structure passwd where
  pw_uid : Nat
  pw_gid : Nat
deriving DecidableEq, Repr

/-- A regular file: its bytes, its owner and group, its permission bits. -/
structure PadFile where
  data : List Nat
  uid : Nat
  gid : Nat
  mode : Nat
deriving DecidableEq, Repr

/-- The two `mode` strings `pad.c` passes to `fopen`: `"r"` and `"w+"`. -/
inductive OpenMode where
  | r
  | wplus
deriving DecidableEq, Repr

/-- An open stream (`FILE *`), identified by the path it was opened on.  Every stream
in `pad.c` is read or written once, from offset 0. -/
structure FILE where
  path : String
deriving DecidableEq, Repr

/-- The mutable state: the files by path, and the `fopen` calls made, oldest first. -/
structure World where
  files : String → Option PadFile
  fopen_log : List (String × OpenMode)

/-- Everything `pad.c` gets from its collaborators and from the operating system. -/
structure Env where
  /-- Result of `pusb_volume_get(opts, ctx)` (`volume.c`): the volume, or `NULL`. -/
  pusb_volume_get : Option LibHalVolume
  /-- Whether `malloc` of that many bytes succeeds. -/
  malloc_ok : Nat → Bool
  /-- Whether the system lets the process open an existing file at the path for reading. -/
  may_read : String → Bool
  /-- Whether `fopen(path, "w+")` succeeds (directory present, volume writable, access granted). -/
  may_write : String → Bool
  /-- How many bytes the system stores when one buffer is written to the path. -/
  write_limit : String → Nat
  /-- The password database: `getpwnam`. -/
  getpwnam : String → Option passwd
  /-- Whether `fchown` succeeds on the file at the path. -/
  fchown_ok : String → Bool
  /-- The permission bits a file has after a successful `fchown`, from those it had
  before: the system may clear the set-user-ID and set-group-ID bits. -/
  fchown_mode : Nat → Nat
  /-- Whether `fchmod` succeeds on the file at the path. -/
  fchmod_ok : String → Bool
  /-- Effective user id of the process: owner of the files it creates. -/
  euid : Nat
  /-- Effective group id of the process. -/
  egid : Nat
  /-- File mode creation mask of the process. -/
  umask : Nat
  /-- Result of `getpid()`. -/
  getpid : Nat
  /-- Result of `time(NULL)`: seconds since the epoch. -/
  time : Nat
  /-- The C library generator: `rand seed i` is the value of the `i`-th call of `rand()`
  after `srand(seed)` (counting from 0). -/
  rand : Nat → Nat → Nat
  /-- Stale content of the stack bytes that become `magic_device` in `pusb_pad_compare`. -/
  stack_device : Nat → Nat
  /-- Stale content of the stack bytes that become `magic_system` in `pusb_pad_compare`. -/
  stack_system : Nat → Nat

/-! ## C library primitives -/

/-- The value of `sizeof(magic)`, `sizeof(magic_device)` and `sizeof(magic_system)`:
all three are `char [1024]`. -/
def sizeof_magic : Nat := 1024

/-- The function `strlen`. -/
def strlen (s : String) : Nat := s.length

/-- The function `snprintf(buf, size, ...)` applied to the already formatted text `s`:
at most `size - 1` characters are stored, followed by the terminating NUL. -/
def snprintf (size : Nat) (s : String) : String := String.mk (s.data.take (size - 1))

/-- Mode of a file created by `fopen(path, "w+")`: `0666 & ~umask`. -/
def create_mode (umask : Nat) : Nat := 0o666 &&& (0o777 ^^^ (umask &&& 0o777))

/-- The value of `S_IRUSR | S_IWUSR`. -/
def S_IRUSR_or_S_IWUSR : Nat := 0o400 ||| 0o200

/-- The function `fopen`.  Mode `"r"` needs an existing file the process may read and
changes no file.  Mode `"w+"` creates the file when it is absent and truncates it to
length zero when it is present.  Every call is appended to the log. -/
def fopen (e : Env) (path : String) (mode : OpenMode) (w : World) : Option FILE × World :=
  let w1 : World := { w with fopen_log := w.fopen_log ++ [(path, mode)] }
  match mode with
  | OpenMode.r =>
    match w.files path with
    | some _ => if e.may_read path then (some ⟨path⟩, w1) else (none, w1)
    | none => (none, w1)
  | OpenMode.wplus =>
    if e.may_write path then
      let pf : PadFile :=
        match w.files path with
        | some old => { old with data := [] }
        | none => { data := [], uid := e.euid, gid := e.egid, mode := create_mode e.umask }
      (some ⟨path⟩, { w1 with files := Function.update w1.files path (some pf) })
    else (none, w1)

/-- An uninitialised `char [1024]`: whatever the stack holds. -/
def uninitialised (stack : Nat → Nat) : List Nat :=
  (List.range sizeof_magic).map (fun i => stack i % 256)

/-- The call `fread(buf, sizeof(char), n, f)` on a freshly opened stream: the first `n`
bytes of the file replace the start of `buf`; when the file is shorter, the rest of
`buf` keeps what it held.  The result is `buf` after the call. -/
def fread (buf : List Nat) (n : Nat) (f : FILE) (w : World) : List Nat :=
  match w.files f.path with
  | some pf => pf.data.take n ++ buf.drop (min n pf.data.length)
  | none => buf

/-- The call `fwrite(buf, sizeof(char), n, f)` on a freshly opened stream, together with
the flush done by `fclose`: the bytes go to offset 0 of the file; the system stores
`write_limit` of them at most. -/
def fwrite (e : Env) (buf : List Nat) (n : Nat) (f : FILE) (w : World) : World :=
  match w.files f.path with
  | some pf =>
    let stored := (buf.take n).take (e.write_limit f.path)
    let pf1 : PadFile := { pf with data := stored ++ pf.data.drop stored.length }
    { w with files := Function.update w.files f.path (some pf1) }
  | none => w

/-- The function `memcmp(a, b, n)`: zero when the first `n` bytes agree, else the
difference of the first pair of bytes that differ. -/
def memcmp : List Nat → List Nat → Nat → Int
  | a :: as, b :: bs, n + 1 => if a = b then memcmp as bs n else (a : Int) - (b : Int)
  | _, _, _ => 0

/-! ## `pad.c` -/

/-- The `path_size` computed in `pusb_pad_open_device`. -/
def device_path_size (opts : t_pusb_options) (mnt_point user : String) : Nat :=
  strlen mnt_point + 1 + strlen opts.device_pad_directory +
    1 + strlen user + 1 + strlen opts.hostname + strlen ".pad" + 1

/-- The text produced by the format `"%s/%s/%s.%s.pad"` in `pusb_pad_open_device`. -/
def device_path_format (opts : t_pusb_options) (mnt_point user : String) : String :=
  mnt_point ++ "/" ++ opts.device_pad_directory ++ "/" ++ user ++ "." ++ opts.hostname ++ ".pad"

/-- The `path` that `pusb_pad_open_device` passes to `fopen`. -/
def device_path (opts : t_pusb_options) (mnt_point user : String) : String :=
  snprintf (device_path_size opts mnt_point user) (device_path_format opts mnt_point user)

/-- The function `pusb_pad_open_device`: no mount point or a failed `malloc` end it
before `fopen` is reached. -/
def pusb_pad_open_device (e : Env) (opts : t_pusb_options) (volume : LibHalVolume)
    (user : String) (mode : OpenMode) (w : World) : Option FILE × World :=
  match volume.mount_point with
  | none => (none, w)
  | some mnt_point =>
    if e.malloc_ok (device_path_size opts mnt_point user) then
      fopen e (device_path opts mnt_point user) mode w
    else (none, w)

/-- The function `pusb_pad_protect` on the file behind `fd`: look the user up, give the
file to that user, then set its mode to `S_IRUSR | S_IWUSR`; a failing `fchown` or
`fchmod` ends it with 0.  When `getpwnam` returns `NULL`, `log_error` is called with a
format that has two `%s` conversions and with one argument for them (`strerror(errno)`,
the user name is missing): undefined behaviour, the run ends there. -/
def pusb_pad_protect (e : Env) (user : String) (f : FILE) (w : World) :
    Option Bool × World :=
  match e.getpwnam user with
  | none => (none, w)
  | some user_ent =>
    match w.files f.path with
    | none => (some false, w)
    | some pf =>
      if e.fchown_ok f.path then
        let pf1 : PadFile :=
          { pf with uid := user_ent.pw_uid, gid := user_ent.pw_gid,
                    mode := e.fchown_mode pf.mode }
        let w1 : World := { w with files := Function.update w.files f.path (some pf1) }
        if e.fchmod_ok f.path then
          let pf2 : PadFile := { pf1 with mode := S_IRUSR_or_S_IWUSR }
          (some true, { w1 with files := Function.update w1.files f.path (some pf2) })
        else (some false, w1)
      else (some false, w)

/-- The `path_size` computed in `pusb_pad_open_system`. -/
def system_path_size (opts : t_pusb_options) (user : String) : Nat :=
  strlen opts.system_pad_directory + 1 +
    strlen user + 1 + strlen opts.device.name + strlen ".pad" + 1

/-- The text produced by the format `"%s/%s.%s.pad"` in `pusb_pad_open_system`. -/
def system_path_format (opts : t_pusb_options) (user : String) : String :=
  opts.system_pad_directory ++ "/" ++ user ++ "." ++ opts.device.name ++ ".pad"

/-- The `path` that `pusb_pad_open_system` passes to `fopen`. -/
def system_path (opts : t_pusb_options) (user : String) : String :=
  snprintf (system_path_size opts user) (system_path_format opts user)

/-- The function `pusb_pad_open_system`. -/
def pusb_pad_open_system (e : Env) (opts : t_pusb_options)
    (user : String) (mode : OpenMode) (w : World) : Option FILE × World :=
  if e.malloc_ok (system_path_size opts user) then
    fopen e (system_path opts user) mode w
  else (none, w)

/-- The argument of `srand` in `pusb_pad_update`: `getpid() * time(NULL)` converted to
`unsigned int`. -/
def pad_seed (e : Env) : Nat := (e.getpid * e.time) % 2 ^ 32

/-- The buffer `magic` after the loop `magic[i] = (char)rand()` of `pusb_pad_update`. -/
def generate_magic (e : Env) : List Nat :=
  (List.range sizeof_magic).map (fun i => e.rand (pad_seed e) i % 256)

/-- The function `pusb_pad_update`: `some ()` when it returns, `none` when a call of
`pusb_pad_protect` ended the run.  The values returned by `pusb_pad_protect` and by
`fwrite` are not looked at.  The streams are flushed by `fclose` in the order of the two
`fwrite` calls; `sync` and the logging calls of this function change nothing that is
modelled. -/
def pusb_pad_update (e : Env) (opts : t_pusb_options) (volume : LibHalVolume)
    (user : String) (w : World) : Option Unit × World :=
  match pusb_pad_open_device e opts volume user OpenMode.wplus w with
  | (none, w1) => (some (), w1)
  | (some f_device, w1) =>
    match pusb_pad_protect e user f_device w1 with
    | (none, w2) => (none, w2)
    | (some _, w2) =>
      match pusb_pad_open_system e opts user OpenMode.wplus w2 with
      | (none, w3) => (some (), w3)
      | (some f_system, w3) =>
        match pusb_pad_protect e user f_system w3 with
        | (none, w4) => (none, w4)
        | (some _, w4) =>
          let magic := generate_magic e
          let w5 := fwrite e magic sizeof_magic f_system w4
          (some (), fwrite e magic sizeof_magic f_device w5)

/-- The buffer `magic_device` of `pusb_pad_compare` after its `fread`. -/
def load_device (e : Env) (f_device : FILE) (w : World) : List Nat :=
  fread (uninitialised e.stack_device) sizeof_magic f_device w

/-- The buffer `magic_system` of `pusb_pad_compare` after its `fread`. -/
def load_system (e : Env) (f_system : FILE) (w : World) : List Nat :=
  fread (uninitialised e.stack_system) sizeof_magic f_system w

/-- The function `pusb_pad_compare`: the system pad is opened first, then the device pad;
both buffers start uninitialised and the results of `fread` are not looked at. -/
def pusb_pad_compare (e : Env) (opts : t_pusb_options) (volume : LibHalVolume)
    (user : String) (w : World) : Bool × World :=
  match pusb_pad_open_system e opts user OpenMode.r w with
  | (none, w1) => (false, w1)
  | (some f_system, w1) =>
    match pusb_pad_open_device e opts volume user OpenMode.r w1 with
    | (none, w2) => (false, w2)
    | (some f_device, w2) =>
      let magic_device := load_device e f_device w2
      let magic_system := load_system e f_system w2
      let retval := memcmp magic_system magic_device sizeof_magic
      (retval == 0, w2)

/-- The function `pusb_pad_check`: `some retval` when it returns, `none` when the run
ended inside `pusb_pad_update`.  The volume comes from `pusb_volume_get`; the call of
`pusb_volume_destroy` and the well-formed logging calls change nothing that is
modelled. -/
def pusb_pad_check (e : Env) (opts : t_pusb_options) (user : String) (w : World) :
    Option Bool × World :=
  match e.pusb_volume_get with
  | none => (some false, w)
  | some volume =>
    let (retval, w1) := pusb_pad_compare e opts volume user w
    if retval then
      match pusb_pad_update e opts volume user w1 with
      | (none, w2) => (none, w2)
      | (some _, w2) => (some retval, w2)
    else (some retval, w1)

/-! ## Observations on a world -/

/-- The bytes stored at a path, when a file is there. -/
def data_at (w : World) (p : String) : Option (List Nat) := (w.files p).map PadFile.data

/-- Owner, group and mode of the file at a path, when a file is there. -/
def meta_at (w : World) (p : String) : Option (Nat × Nat × Nat) :=
  (w.files p).map (fun pf => (pf.uid, pf.gid, pf.mode))

/-! ## Concrete states used as examples -/

/-- Options of a host `"host"` with a device named `"stick"`. -/
def opts0 : t_pusb_options :=
  { hostname := "host", system_pad_directory := "/etc/pusb",
    device_pad_directory := ".auth", device := { name := "stick" } }

/-- A pad of 1024 zero bytes owned by root with mode 0644. -/
def zero_pad : PadFile := { data := List.replicate 1024 0, uid := 0, gid := 0, mode := 0o644 }

/-- Both pads of `alice` hold 1024 zero bytes. -/
def world0 : World :=
  { files := fun p =>
      if p = "/media/usb/.auth/alice.host.pad" then some zero_pad
      else if p = "/etc/pusb/alice.stick.pad" then some zero_pad
      else none,
    fopen_log := [] }

/-- Scenario B: the system pad differs from the device pad in its first byte. -/
def world_mismatch : World :=
  { files := fun p =>
      if p = "/media/usb/.auth/alice.host.pad" then some zero_pad
      else if p = "/etc/pusb/alice.stick.pad" then
        some { zero_pad with data := 1 :: List.replicate 1023 0 }
      else none,
    fopen_log := [] }

/-- The device pad file holds one byte more than the 1024 zero bytes of the system pad. -/
def world_long : World :=
  { files := fun p =>
      if p = "/media/usb/.auth/alice.host.pad" then
        some { zero_pad with data := List.replicate 1024 0 ++ [7] }
      else if p = "/etc/pusb/alice.stick.pad" then some zero_pad
      else none,
    fopen_log := [] }

/-- The device pad file is empty, as a rotation leaves it that could not open the system
pad; the system pad holds 1024 zero bytes. -/
def world_empty_device : World :=
  { files := fun p =>
      if p = "/media/usb/.auth/alice.host.pad" then some { zero_pad with data := [] }
      else if p = "/etc/pusb/alice.stick.pad" then some zero_pad
      else none,
    fopen_log := [] }

/-- The sample generator of the C standard: `next = next * 1103515245 + 12345`,
`rand()` returns `(next / 65536) % 32768`. -/
def sample_rand (seed i : Nat) : Nat :=
  ((fun next => (next * 1103515245 + 12345) % 2 ^ 32)^[i + 1] seed) / 65536 % 32768

/-- A healthy system: the volume is mounted on `/media/usb`, every call succeeds. -/
def env0 : Env :=
  { pusb_volume_get := some { mount_point := some "/media/usb" },
    malloc_ok := fun _ => true,
    may_read := fun _ => true,
    may_write := fun _ => true,
    write_limit := fun _ => 1024,
    getpwnam := fun u => if u = "alice" then some { pw_uid := 1000, pw_gid := 1000 } else none,
    fchown_ok := fun _ => true,
    fchown_mode := fun m => if m &&& 0o010 = 0 then m &&& 0o3777 else m &&& 0o1777,
    fchmod_ok := fun _ => true,
    euid := 0, egid := 0, umask := 0o022,
    getpid := 4242, time := 1700000000,
    rand := sample_rand,
    stack_device := fun _ => 0,
    stack_system := fun i => i }

/-- The volume of `env0`. -/
def vol0 : LibHalVolume := { mount_point := some "/media/usb" }

/-- As `env0`, but the system pad cannot be opened for writing. -/
def env_sys_ro : Env :=
  { env0 with may_write := fun p => decide (p ≠ "/etc/pusb/alice.stick.pad") }

/-- As `env0`, with a file system on the volume that refuses `fchown`. -/
def env_vfat : Env :=
  { env0 with fchown_ok := fun p => decide (p ≠ "/media/usb/.auth/alice.host.pad") }

/-- As `env0`, with a password database that does not know the user. -/
def env_nouser : Env := { env0 with getpwnam := fun _ => none }

/-- As `env_sys_ro`, with a password database that does not know the user. -/
def env_nouser_sys_ro : Env := { env_sys_ro with getpwnam := fun _ => none }

/-- As `env0`, with the bytes 0xff left on the stack where `magic_device` will be. -/
def env_stale : Env := { env0 with stack_device := fun _ => 255 }

/-- As `env0`, in a process with id 65536. -/
def env_pid : Env := { env0 with getpid := 65536 }

/-- World after the device pad was opened for writing and protected. -/
def after_device (e : Env) (opts : t_pusb_options) (m u : String) (w : World) : World :=
  (pusb_pad_protect e u ⟨device_path opts m u⟩
    (fopen e (device_path opts m u) OpenMode.wplus w).2).2

/-- World after the system pad was opened for writing and protected as well. -/
def after_system (e : Env) (opts : t_pusb_options) (m u : String) (w : World) : World :=
  (pusb_pad_protect e u ⟨system_path opts u⟩
    (fopen e (system_path opts u) OpenMode.wplus (after_device e opts m u w)).2).2

/-! # Lemmas -/

set_option maxRecDepth 100000

/-! ## Paths -/

theorem snprintf_fits (s : String) (size : Nat) (h : s.length + 1 ≤ size) : snprintf size s = s := by
  unfold snprintf
  have : s.data.take (size - 1) = s.data := by
    apply List.take_of_length_le
    have : s.data.length = s.length := rfl
    omega
  rw [this]

theorem device_path_size_eq (opts : t_pusb_options) (m u : String) :
    device_path_size opts m u = (device_path_format opts m u).length + 1 := by
  simp only [device_path_size, device_path_format, strlen, String.length_append]
  have h1 : "/".length = 1 := by decide
  have h2 : ".".length = 1 := by decide
  have h3 : ".pad".length = 4 := by decide
  omega

theorem system_path_size_eq (opts : t_pusb_options) (u : String) :
    system_path_size opts u = (system_path_format opts u).length + 1 := by
  simp only [system_path_size, system_path_format, strlen, String.length_append]
  have h1 : "/".length = 1 := by decide
  have h2 : ".".length = 1 := by decide
  have h3 : ".pad".length = 4 := by decide
  omega

theorem device_path_eq (opts : t_pusb_options) (m u : String) :
    device_path opts m u = device_path_format opts m u := by
  unfold device_path
  exact snprintf_fits _ _ (le_of_eq (device_path_size_eq opts m u).symm)

theorem system_path_eq (opts : t_pusb_options) (u : String) :
    system_path opts u = system_path_format opts u := by
  unfold system_path
  exact snprintf_fits _ _ (le_of_eq (system_path_size_eq opts u).symm)

/-! ## Buffers -/

theorem memcmp_eq_zero_iff (a b : List Nat) (n : Nat) (ha : a.length = n) (hb : b.length = n) :
    memcmp a b n = 0 ↔ a = b := by
  induction n generalizing a b with
  | zero =>
    have h1 : a = [] := List.length_eq_zero.mp ha
    have h2 : b = [] := List.length_eq_zero.mp hb
    subst h1; subst h2
    simp [memcmp]
  | succ k ih =>
    cases a with
    | nil => simp at ha
    | cons x xs =>
      cases b with
      | nil => simp at hb
      | cons y ys =>
        simp only [List.length_cons, Nat.add_right_cancel_iff] at ha hb
        by_cases hxy : x = y
        · subst hxy
          simp [memcmp, ih xs ys ha hb]
        · have : (x : Int) - (y : Int) ≠ 0 := by omega
          simp [memcmp, hxy, this]

theorem uninitialised_length (g : Nat → Nat) : (uninitialised g).length = 1024 := by
  simp [uninitialised, sizeof_magic]

theorem fread_length (buf : List Nat) (n : Nat) (f : FILE) (w : World) (h : n ≤ buf.length) :
    (fread buf n f w).length = buf.length := by
  unfold fread
  cases w.files f.path with
  | none => rfl
  | some pf =>
    simp only [List.length_append, List.length_take, List.length_drop]
    omega

theorem load_device_length (e : Env) (f : FILE) (w : World) :
    (load_device e f w).length = 1024 := by
  unfold load_device
  rw [fread_length _ _ _ _ (by simp [uninitialised_length, sizeof_magic]), uninitialised_length]

theorem load_system_length (e : Env) (f : FILE) (w : World) :
    (load_system e f w).length = 1024 := by
  unfold load_system
  rw [fread_length _ _ _ _ (by simp [uninitialised_length, sizeof_magic]), uninitialised_length]

theorem fread_full (buf : List Nat) (n : Nat) (f : FILE) (w : World) (pf : PadFile)
    (hf : w.files f.path = some pf) (hb : buf.length = n) (hl : n ≤ pf.data.length) :
    fread buf n f w = pf.data.take n := by
  unfold fread
  rw [hf]
  simp only
  rw [Nat.min_eq_left hl, List.drop_of_length_le (le_of_eq hb), List.append_nil]

/-! ## Opening for reading -/

theorem fopen_r_files (e : Env) (p : String) (w : World) :
    (fopen e p OpenMode.r w).2.files = w.files := by
  unfold fopen
  simp only
  split
  · split <;> rfl
  · rfl

theorem fopen_log_eq (e : Env) (p : String) (mode : OpenMode) (w : World) :
    (fopen e p mode w).2.fopen_log = w.fopen_log ++ [(p, mode)] := by
  unfold fopen
  cases mode with
  | r =>
    simp only
    split
    · split <;> rfl
    · rfl
  | wplus =>
    simp only
    split <;> rfl

theorem fopen_r_fst (e : Env) (p : String) (w : World) (f : FILE) :
    (fopen e p OpenMode.r w).1 = some f ↔
      f = ⟨p⟩ ∧ e.may_read p = true ∧ ∃ pf, w.files p = some pf := by
  unfold fopen
  simp only
  cases hf : w.files p with
  | none => simp
  | some pf =>
    by_cases hr : e.may_read p = true
    · simp [hr, eq_comm]
    · simp [hr]

theorem open_system_r_files (e : Env) (opts : t_pusb_options) (u : String) (w : World) :
    (pusb_pad_open_system e opts u OpenMode.r w).2.files = w.files := by
  unfold pusb_pad_open_system
  split
  · exact fopen_r_files _ _ _
  · rfl

theorem open_device_r_files (e : Env) (opts : t_pusb_options) (v : LibHalVolume) (u : String)
    (w : World) : (pusb_pad_open_device e opts v u OpenMode.r w).2.files = w.files := by
  unfold pusb_pad_open_device
  split
  · rfl
  · split
    · exact fopen_r_files _ _ _
    · rfl

theorem open_system_r_fst (e : Env) (opts : t_pusb_options) (u : String) (w : World) (f : FILE) :
    (pusb_pad_open_system e opts u OpenMode.r w).1 = some f ↔
      f = ⟨system_path opts u⟩ ∧ e.malloc_ok (system_path_size opts u) = true ∧
        e.may_read (system_path opts u) = true ∧ ∃ pf, w.files (system_path opts u) = some pf := by
  unfold pusb_pad_open_system
  by_cases hm : e.malloc_ok (system_path_size opts u) = true
  · simp only [hm, if_true, true_and]
    exact fopen_r_fst _ _ _ _
  · simp [hm]

theorem open_device_r_fst (e : Env) (opts : t_pusb_options) (v : LibHalVolume) (u : String)
    (w : World) (f : FILE) :
    (pusb_pad_open_device e opts v u OpenMode.r w).1 = some f ↔
      ∃ m, v.mount_point = some m ∧ f = ⟨device_path opts m u⟩ ∧
        e.malloc_ok (device_path_size opts m u) = true ∧
        e.may_read (device_path opts m u) = true ∧
        ∃ pf, w.files (device_path opts m u) = some pf := by
  unfold pusb_pad_open_device
  cases hv : v.mount_point with
  | none => simp
  | some m =>
    simp only [Option.some.injEq, exists_eq_left']
    by_cases hm : e.malloc_ok (device_path_size opts m u) = true
    · simp only [hm, if_true, true_and]
      exact fopen_r_fst _ _ _ _
    · simp [hm]

/-- Reads look at the files only, not at the log. -/
theorem fread_congr (buf : List Nat) (n : Nat) (f : FILE) (w w2 : World)
    (h : w.files = w2.files) : fread buf n f w = fread buf n f w2 := by
  unfold fread
  rw [h]

/-- The verdict of `pusb_pad_compare`, spelled out. -/
theorem pusb_pad_compare_true_iff (e : Env) (opts : t_pusb_options) (v : LibHalVolume)
    (u : String) (w : World) :
    (pusb_pad_compare e opts v u w).1 = true ↔
      ∃ m, v.mount_point = some m ∧
        e.malloc_ok (system_path_size opts u) = true ∧
        e.may_read (system_path opts u) = true ∧
        (∃ pf, w.files (system_path opts u) = some pf) ∧
        e.malloc_ok (device_path_size opts m u) = true ∧
        e.may_read (device_path opts m u) = true ∧
        (∃ pf, w.files (device_path opts m u) = some pf) ∧
        load_system e ⟨system_path opts u⟩ w = load_device e ⟨device_path opts m u⟩ w := by
  unfold pusb_pad_compare
  cases hs : pusb_pad_open_system e opts u OpenMode.r w with
  | mk fs w1 =>
    have hs1 : (pusb_pad_open_system e opts u OpenMode.r w).1 = fs := by rw [hs]
    have hw1 : w1.files = w.files := by
      have := open_system_r_files e opts u w
      rw [hs] at this
      exact this
    cases fs with
    | none =>
      simp only [Bool.false_eq_true, false_iff]
      rintro ⟨m, _, h1, h2, h3, _⟩
      have := (open_system_r_fst e opts u w ⟨system_path opts u⟩).mpr ⟨rfl, h1, h2, h3⟩
      rw [hs1] at this
      cases this
    | some f_system =>
      obtain ⟨hfs, hms, hrs, hes⟩ := (open_system_r_fst e opts u w f_system).mp hs1
      cases hd : pusb_pad_open_device e opts v u OpenMode.r w1 with
      | mk fd w2 =>
        have hd1 : (pusb_pad_open_device e opts v u OpenMode.r w1).1 = fd := by rw [hd]
        have hw2 : w2.files = w.files := by
          have := open_device_r_files e opts v u w1
          rw [hd] at this
          rw [this, hw1]
        simp only [hd]
        cases fd with
        | none =>
          simp only [Bool.false_eq_true, false_iff]
          rintro ⟨m, h0, _, _, _, h1, h2, h3, _⟩
          have := (open_device_r_fst e opts v u w1 ⟨device_path opts m u⟩).mpr
            ⟨m, h0, rfl, h1, h2, by rw [hw1]; exact h3⟩
          rw [hd1] at this
          cases this
        | some f_device =>
          obtain ⟨m, hv, hfd, hmd, hrd, hed⟩ := (open_device_r_fst e opts v u w1 f_device).mp hd1
          rw [hw1] at hed
          simp only [beq_iff_eq]
          rw [memcmp_eq_zero_iff _ _ sizeof_magic (load_system_length _ _ _)
            (load_device_length _ _ _)]
          subst hfs; subst hfd
          have e1 : load_system e ⟨system_path opts u⟩ w2 = load_system e ⟨system_path opts u⟩ w :=
            fread_congr _ _ _ _ _ hw2
          have e2 : load_device e ⟨device_path opts m u⟩ w2
              = load_device e ⟨device_path opts m u⟩ w := fread_congr _ _ _ _ _ hw2
          rw [e1, e2]
          constructor
          · intro h
            exact ⟨m, hv, hms, hrs, hes, hmd, hrd, hed, h⟩
          · rintro ⟨m2, hv2, _, _, _, _, _, _, h⟩
            rw [hv] at hv2
            cases hv2
            exact h

theorem pusb_pad_compare_files (e : Env) (opts : t_pusb_options) (v : LibHalVolume)
    (u : String) (w : World) : (pusb_pad_compare e opts v u w).2.files = w.files := by
  unfold pusb_pad_compare
  cases hs : pusb_pad_open_system e opts u OpenMode.r w with
  | mk fs w1 =>
    have hw1 : w1.files = w.files := by
      have := open_system_r_files e opts u w
      rw [hs] at this
      exact this
    cases fs with
    | none => exact hw1
    | some f_system =>
      cases hd : pusb_pad_open_device e opts v u OpenMode.r w1 with
      | mk fd w2 =>
        have hw2 : w2.files = w.files := by
          have := open_device_r_files e opts v u w1
          rw [hd] at this
          rw [this, hw1]
        simp only [hd]
        cases fd with
        | none => exact hw2
        | some f_device => exact hw2

/-! ## Opening for writing, protecting, writing -/

theorem fopen_wplus_fail (e : Env) (p : String) (w : World) (h : e.may_write p = false) :
    (fopen e p OpenMode.wplus w).1 = none ∧ (fopen e p OpenMode.wplus w).2.files = w.files := by
  unfold fopen
  simp [h]

theorem fopen_wplus_fst (e : Env) (p : String) (w : World) (h : e.may_write p = true) :
    (fopen e p OpenMode.wplus w).1 = some ⟨p⟩ := by
  unfold fopen
  simp [h]

theorem fopen_wplus_other (e : Env) (p q : String) (w : World) (hq : q ≠ p) :
    (fopen e p OpenMode.wplus w).2.files q = w.files q := by
  unfold fopen
  by_cases h : e.may_write p = true
  · simp [h, Function.update_noteq hq]
  · simp [h]

theorem fopen_wplus_data (e : Env) (p : String) (w : World) (h : e.may_write p = true) :
    data_at (fopen e p OpenMode.wplus w).2 p = some [] := by
  unfold fopen data_at
  simp only [h, if_true, Function.update_same, Option.map_some']
  cases w.files p <;> rfl

theorem fopen_wplus_meta (e : Env) (p : String) (w : World) (pf : PadFile)
    (h : e.may_write p = true) (hf : w.files p = some pf) :
    meta_at (fopen e p OpenMode.wplus w).2 p = some (pf.uid, pf.gid, pf.mode) := by
  unfold fopen meta_at
  simp only [h, if_true, Function.update_same, Option.map_some', hf]

theorem protect_other (e : Env) (u : String) (f : FILE) (w : World) (q : String)
    (hq : q ≠ f.path) : (pusb_pad_protect e u f w).2.files q = w.files q := by
  unfold pusb_pad_protect
  cases e.getpwnam u with
  | none => rfl
  | some pw =>
    cases w.files f.path with
    | none => rfl
    | some pf =>
      by_cases h1 : e.fchown_ok f.path = true
      · by_cases h2 : e.fchmod_ok f.path = true
        · simp [h1, h2, Function.update_noteq hq]
        · simp [h1, h2, Function.update_noteq hq]
      · simp [h1]

theorem protect_data (e : Env) (u : String) (f : FILE) (w : World) (q : String) :
    data_at (pusb_pad_protect e u f w).2 q = data_at w q := by
  by_cases hq : q = f.path
  · subst hq
    unfold pusb_pad_protect data_at
    cases e.getpwnam u with
    | none => rfl
    | some pw =>
      cases hf : w.files f.path with
      | none => simp [hf]
      | some pf =>
        by_cases h1 : e.fchown_ok f.path = true
        · by_cases h2 : e.fchmod_ok f.path = true
          · simp [h1, h2, hf]
          · simp [h1, h2, hf]
        · simp [h1, hf]
  · unfold data_at
    rw [protect_other e u f w q hq]

/-- When the user is known and both `fchown` and `fchmod` succeed, the file belongs to
the user and has mode `S_IRUSR | S_IWUSR`. -/
theorem protect_meta_ok (e : Env) (u : String) (f : FILE) (w : World) (pw : passwd)
    (pf : PadFile) (hu : e.getpwnam u = some pw) (h1 : e.fchown_ok f.path = true)
    (h2 : e.fchmod_ok f.path = true) (hf : w.files f.path = some pf) :
    meta_at (pusb_pad_protect e u f w).2 f.path = some (pw.pw_uid, pw.pw_gid, 0o600) := by
  unfold pusb_pad_protect meta_at
  simp [hu, hf, h1, h2, S_IRUSR_or_S_IWUSR]

theorem protect_meta_other (e : Env) (u : String) (f : FILE) (w : World) (q : String)
    (hq : q ≠ f.path) : meta_at (pusb_pad_protect e u f w).2 q = meta_at w q := by
  unfold meta_at
  rw [protect_other e u f w q hq]

theorem fwrite_other (e : Env) (buf : List Nat) (n : Nat) (f : FILE) (w : World) (q : String)
    (hq : q ≠ f.path) : (fwrite e buf n f w).files q = w.files q := by
  unfold fwrite
  cases w.files f.path with
  | none => rfl
  | some pf => simp [Function.update_noteq hq]

theorem fwrite_meta (e : Env) (buf : List Nat) (n : Nat) (f : FILE) (w : World) (q : String) :
    meta_at (fwrite e buf n f w) q = meta_at w q := by
  by_cases hq : q = f.path
  · subst hq
    unfold fwrite meta_at
    cases hf : w.files f.path with
    | none => simp [hf]
    | some pf => simp [hf]
  · unfold meta_at
    rw [fwrite_other e buf n f w q hq]

theorem fwrite_data (e : Env) (buf : List Nat) (n : Nat) (f : FILE) (w : World) :
    data_at (fwrite e buf n f w) f.path =
      (data_at w f.path).map (fun d =>
        (buf.take n).take (e.write_limit f.path) ++
          d.drop ((buf.take n).take (e.write_limit f.path)).length) := by
  unfold fwrite data_at
  cases hf : w.files f.path with
  | none => simp [hf]
  | some pf => simp [hf]

theorem fwrite_data_other (e : Env) (buf : List Nat) (n : Nat) (f : FILE) (w : World)
    (q : String) (hq : q ≠ f.path) : data_at (fwrite e buf n f w) q = data_at w q := by
  unfold data_at
  rw [fwrite_other e buf n f w q hq]

theorem generate_magic_length (e : Env) : (generate_magic e).length = 1024 := by
  simp [generate_magic, sizeof_magic]

/-- A complete write of `magic` over an empty file, or over a file that already holds
`magic`, leaves exactly `magic`. -/
theorem fwrite_magic (e : Env) (f : FILE) (w : World) (h : 1024 ≤ e.write_limit f.path)
    (hd : data_at w f.path = some [] ∨ data_at w f.path = some (generate_magic e)) :
    data_at (fwrite e (generate_magic e) sizeof_magic f w) f.path = some (generate_magic e) := by
  rw [fwrite_data]
  have hl := generate_magic_length e
  have h1 : (generate_magic e).take sizeof_magic = generate_magic e :=
    List.take_of_length_le (by simp [hl, sizeof_magic])
  have h2 : (generate_magic e).take (e.write_limit f.path) = generate_magic e :=
    List.take_of_length_le (by omega)
  rw [h1, h2]
  rcases hd with hd | hd
  · simp [hd]
  · simp [hd]

/-! The same facts for a stream given by its path. -/

theorem protect_other_path (e : Env) (u p : String) (w : World) (q : String) (hq : q ≠ p) :
    (pusb_pad_protect e u ⟨p⟩ w).2.files q = w.files q :=
  protect_other e u ⟨p⟩ w q hq

theorem protect_meta_ok_path (e : Env) (u p : String) (w : World) (pw : passwd)
    (pf : PadFile) (hu : e.getpwnam u = some pw) (h1 : e.fchown_ok p = true)
    (h2 : e.fchmod_ok p = true) (hf : w.files p = some pf) :
    meta_at (pusb_pad_protect e u ⟨p⟩ w).2 p = some (pw.pw_uid, pw.pw_gid, 0o600) :=
  protect_meta_ok e u ⟨p⟩ w pw pf hu h1 h2 hf

theorem protect_meta_other_path (e : Env) (u p : String) (w : World) (q : String)
    (hq : q ≠ p) : meta_at (pusb_pad_protect e u ⟨p⟩ w).2 q = meta_at w q :=
  protect_meta_other e u ⟨p⟩ w q hq

theorem fwrite_other_path (e : Env) (buf : List Nat) (n : Nat) (p : String) (w : World)
    (q : String) (hq : q ≠ p) : (fwrite e buf n ⟨p⟩ w).files q = w.files q :=
  fwrite_other e buf n ⟨p⟩ w q hq

theorem fwrite_data_other_path (e : Env) (buf : List Nat) (n : Nat) (p : String) (w : World)
    (q : String) (hq : q ≠ p) : data_at (fwrite e buf n ⟨p⟩ w) q = data_at w q :=
  fwrite_data_other e buf n ⟨p⟩ w q hq

theorem fwrite_magic_path (e : Env) (p : String) (w : World) (h : 1024 ≤ e.write_limit p)
    (hd : data_at w p = some [] ∨ data_at w p = some (generate_magic e)) :
    data_at (fwrite e (generate_magic e) sizeof_magic ⟨p⟩ w) p = some (generate_magic e) :=
  fwrite_magic e ⟨p⟩ w h hd

/-! ## The shape of `pusb_pad_update` -/

theorem fopen_wplus_eq (e : Env) (p : String) (w : World) (h : e.may_write p = true) :
    fopen e p OpenMode.wplus w = (some ⟨p⟩, (fopen e p OpenMode.wplus w).2) :=
  Prod.ext (fopen_wplus_fst e p w h) rfl

theorem fopen_wplus_eq_none (e : Env) (p : String) (w : World) (h : e.may_write p = false) :
    fopen e p OpenMode.wplus w = (none, (fopen e p OpenMode.wplus w).2) :=
  Prod.ext (fopen_wplus_fail e p w h).1 rfl

/-- For a user `getpwnam` does not find, `pusb_pad_protect` ends the run and has changed
nothing. -/
theorem protect_unknown (e : Env) (u : String) (f : FILE) (w : World)
    (h : e.getpwnam u = none) : pusb_pad_protect e u f w = (none, w) := by
  unfold pusb_pad_protect
  rw [h]

/-- For a user `getpwnam` finds, `pusb_pad_protect` returns. -/
theorem protect_known (e : Env) (u : String) (f : FILE) (w : World) (pw : passwd)
    (h : e.getpwnam u = some pw) :
    ∃ b, pusb_pad_protect e u f w = (some b, (pusb_pad_protect e u f w).2) := by
  unfold pusb_pad_protect
  rw [h]
  simp only
  cases w.files f.path with
  | none => exact ⟨false, rfl⟩
  | some pf =>
    simp only
    by_cases h1 : e.fchown_ok f.path = true
    · by_cases h2 : e.fchmod_ok f.path = true
      · simp [h1, h2]
      · simp [h1, h2]
    · simp [h1]

/-- For a user `getpwnam` does not find, the run ends in the first `pusb_pad_protect`:
the device pad has been opened, the system pad has not. -/
theorem update_unknown_user (e : Env) (opts : t_pusb_options) (v : LibHalVolume) (u : String)
    (w : World) (m : String) (hv : v.mount_point = some m)
    (hmd : e.malloc_ok (device_path_size opts m u) = true)
    (hwd : e.may_write (device_path opts m u) = true)
    (hu : e.getpwnam u = none) :
    pusb_pad_update e opts v u w = (none, (fopen e (device_path opts m u) OpenMode.wplus w).2) := by
  unfold pusb_pad_update pusb_pad_open_device
  simp only [hv, hmd, if_true]
  rw [fopen_wplus_eq e _ w hwd]
  simp only
  rw [protect_unknown e u _ _ hu]

theorem update_system_closed (e : Env) (opts : t_pusb_options) (v : LibHalVolume) (u : String)
    (w : World) (m : String) (pw : passwd) (hv : v.mount_point = some m)
    (hmd : e.malloc_ok (device_path_size opts m u) = true)
    (hwd : e.may_write (device_path opts m u) = true)
    (hws : e.may_write (system_path opts u) = false)
    (hu : e.getpwnam u = some pw) :
    (pusb_pad_update e opts v u w).1 = some () ∧
    (pusb_pad_update e opts v u w).2.files = (after_device e opts m u w).files := by
  obtain ⟨b, hb⟩ := protect_known e u ⟨device_path opts m u⟩
    (fopen e (device_path opts m u) OpenMode.wplus w).2 pw hu
  unfold pusb_pad_update pusb_pad_open_device pusb_pad_open_system
  simp only [hv, hmd, if_true]
  rw [fopen_wplus_eq e _ w hwd]
  simp only
  rw [hb]
  simp only
  by_cases hms : e.malloc_ok (system_path_size opts u) = true
  · simp only [hms, if_true]
    rw [fopen_wplus_eq_none e _ _ hws]
    exact ⟨rfl, (fopen_wplus_fail e _ _ hws).2⟩
  · simp only [hms]
    exact ⟨rfl, rfl⟩

theorem update_both_open (e : Env) (opts : t_pusb_options) (v : LibHalVolume) (u : String)
    (w : World) (m : String) (pw : passwd) (hv : v.mount_point = some m)
    (hmd : e.malloc_ok (device_path_size opts m u) = true)
    (hms : e.malloc_ok (system_path_size opts u) = true)
    (hwd : e.may_write (device_path opts m u) = true)
    (hws : e.may_write (system_path opts u) = true)
    (hu : e.getpwnam u = some pw) :
    pusb_pad_update e opts v u w =
      (some (), fwrite e (generate_magic e) sizeof_magic ⟨device_path opts m u⟩
        (fwrite e (generate_magic e) sizeof_magic ⟨system_path opts u⟩
          (after_system e opts m u w))) := by
  obtain ⟨b, hb⟩ := protect_known e u ⟨device_path opts m u⟩
    (fopen e (device_path opts m u) OpenMode.wplus w).2 pw hu
  obtain ⟨c, hc⟩ := protect_known e u ⟨system_path opts u⟩
    (fopen e (system_path opts u) OpenMode.wplus (after_device e opts m u w)).2 pw hu
  unfold after_device at hc
  unfold pusb_pad_update pusb_pad_open_device pusb_pad_open_system
  simp only [hv, hmd, hms, if_true]
  rw [fopen_wplus_eq e _ w hwd]
  simp only
  rw [hb]
  simp only
  rw [fopen_wplus_eq e _ _ hws]
  simp only
  rw [hc]
  rfl

theorem after_device_data (e : Env) (opts : t_pusb_options) (m u : String) (w : World)
    (hwd : e.may_write (device_path opts m u) = true) :
    data_at (after_device e opts m u w) (device_path opts m u) = some [] := by
  unfold after_device
  rw [protect_data]
  exact fopen_wplus_data e _ w hwd

theorem after_device_other (e : Env) (opts : t_pusb_options) (m u : String) (w : World)
    (q : String) (hq : q ≠ device_path opts m u) :
    (after_device e opts m u w).files q = w.files q := by
  unfold after_device
  rw [protect_other_path e u _ _ q hq, fopen_wplus_other e _ q w hq]

theorem after_system_data_system (e : Env) (opts : t_pusb_options) (m u : String) (w : World)
    (hws : e.may_write (system_path opts u) = true) :
    data_at (after_system e opts m u w) (system_path opts u) = some [] := by
  unfold after_system
  rw [protect_data]
  exact fopen_wplus_data e _ _ hws

theorem after_system_data_device (e : Env) (opts : t_pusb_options) (m u : String) (w : World)
    (hwd : e.may_write (device_path opts m u) = true)
    (hws : e.may_write (system_path opts u) = true) :
    data_at (after_system e opts m u w) (device_path opts m u) = some [] := by
  by_cases hq : device_path opts m u = system_path opts u
  · rw [hq]
    exact after_system_data_system e opts m u w hws
  · unfold after_system
    rw [protect_data]
    unfold data_at
    rw [fopen_wplus_other e _ _ _ hq]
    exact after_device_data e opts m u w hwd

/-- After a rotation in which both files were opened and both writes were complete, each
file holds exactly the generated buffer. -/
theorem update_data (e : Env) (opts : t_pusb_options) (v : LibHalVolume) (u : String)
    (w : World) (m : String) (pw : passwd) (hv : v.mount_point = some m)
    (hmd : e.malloc_ok (device_path_size opts m u) = true)
    (hms : e.malloc_ok (system_path_size opts u) = true)
    (hwd : e.may_write (device_path opts m u) = true)
    (hws : e.may_write (system_path opts u) = true)
    (hu : e.getpwnam u = some pw)
    (hld : 1024 ≤ e.write_limit (device_path opts m u))
    (hls : 1024 ≤ e.write_limit (system_path opts u)) :
    (pusb_pad_update e opts v u w).1 = some () ∧
    data_at (pusb_pad_update e opts v u w).2 (device_path opts m u)
      = some (generate_magic e) ∧
    data_at (pusb_pad_update e opts v u w).2 (system_path opts u)
      = some (generate_magic e) := by
  rw [update_both_open e opts v u w m pw hv hmd hms hwd hws hu]
  refine ⟨rfl, ?_⟩
  simp only
  have hs : data_at (fwrite e (generate_magic e) sizeof_magic ⟨system_path opts u⟩
      (after_system e opts m u w)) (system_path opts u) = some (generate_magic e) :=
    fwrite_magic_path e (system_path opts u) _ hls
      (Or.inl (after_system_data_system e opts m u w hws))
  by_cases hq : device_path opts m u = system_path opts u
  · have hd : data_at (fwrite e (generate_magic e) sizeof_magic ⟨device_path opts m u⟩
        (fwrite e (generate_magic e) sizeof_magic ⟨system_path opts u⟩
          (after_system e opts m u w))) (device_path opts m u) = some (generate_magic e) := by
      apply fwrite_magic_path e (device_path opts m u) _ hld
      right
      have key : ∀ q, q = system_path opts u →
          data_at (fwrite e (generate_magic e) sizeof_magic ⟨system_path opts u⟩
            (after_system e opts m u w)) q = some (generate_magic e) := by
        intro q hq2
        rw [hq2]
        exact hs
      exact key _ hq
    have key2 : ∀ q, q = device_path opts m u →
        data_at (fwrite e (generate_magic e) sizeof_magic ⟨device_path opts m u⟩
          (fwrite e (generate_magic e) sizeof_magic ⟨system_path opts u⟩
            (after_system e opts m u w))) q = some (generate_magic e) := by
      intro q hq2
      rw [hq2]
      exact hd
    exact ⟨hd, key2 _ hq.symm⟩
  · constructor
    · apply fwrite_magic_path e (device_path opts m u) _ hld
      left
      rw [fwrite_data_other_path e _ _ _ _ _ hq]
      exact after_system_data_device e opts m u w hwd hws
    · rw [fwrite_data_other_path e _ _ (device_path opts m u) _ _ (Ne.symm hq)]
      exact hs

/-! ## The shape of `pusb_pad_check` -/

theorem check_no_volume (e : Env) (opts : t_pusb_options) (u : String) (w : World)
    (hv : e.pusb_volume_get = none) : pusb_pad_check e opts u w = (some false, w) := by
  unfold pusb_pad_check
  rw [hv]

theorem check_mismatch (e : Env) (opts : t_pusb_options) (u : String) (w : World)
    (v : LibHalVolume) (hv : e.pusb_volume_get = some v)
    (hc : (pusb_pad_compare e opts v u w).1 = false) :
    pusb_pad_check e opts u w = (some false, (pusb_pad_compare e opts v u w).2) := by
  unfold pusb_pad_check
  rw [hv]
  simp only
  rcases hc2 : pusb_pad_compare e opts v u w with ⟨r, w1⟩
  rw [hc2] at hc
  simp only at hc
  subst hc
  simp

theorem check_match (e : Env) (opts : t_pusb_options) (u : String) (w : World)
    (v : LibHalVolume) (hv : e.pusb_volume_get = some v)
    (hc : (pusb_pad_compare e opts v u w).1 = true) :
    pusb_pad_check e opts u w =
      ((pusb_pad_update e opts v u (pusb_pad_compare e opts v u w).2).1.map (fun _ => true),
       (pusb_pad_update e opts v u (pusb_pad_compare e opts v u w).2).2) := by
  unfold pusb_pad_check
  rw [hv]
  simp only
  rcases hc2 : pusb_pad_compare e opts v u w with ⟨r, w1⟩
  rw [hc2] at hc
  simp only at hc
  subst hc
  simp only [if_true]
  rcases pusb_pad_update e opts v u w1 with ⟨r2, w2⟩
  cases r2 <;> rfl

/-- A run that returns true went through a matching comparison. -/
theorem check_true_compare (e : Env) (opts : t_pusb_options) (u : String) (w : World)
    (h : (pusb_pad_check e opts u w).1 = some true) :
    ∃ v, e.pusb_volume_get = some v ∧ (pusb_pad_compare e opts v u w).1 = true := by
  cases hv : e.pusb_volume_get with
  | none =>
    rw [check_no_volume e opts u w hv] at h
    cases h
  | some v =>
    refine ⟨v, rfl, ?_⟩
    cases hc : (pusb_pad_compare e opts v u w).1 with
    | true => rfl
    | false =>
      rw [check_mismatch e opts u w v hv hc] at h
      cases h

/-- A run that returns false has changed no file. -/
theorem check_false_files (e : Env) (opts : t_pusb_options) (u : String) (w : World)
    (h : (pusb_pad_check e opts u w).1 = some false) :
    (pusb_pad_check e opts u w).2.files = w.files := by
  cases hv : e.pusb_volume_get with
  | none => rw [check_no_volume e opts u w hv]
  | some v =>
    cases hc : (pusb_pad_compare e opts v u w).1 with
    | false =>
      rw [check_mismatch e opts u w v hv hc]
      exact pusb_pad_compare_files e opts v u w
    | true =>
      rw [check_match e opts u w v hv hc] at h
      simp only at h
      cases hup : (pusb_pad_update e opts v u (pusb_pad_compare e opts v u w).2).1 with
      | none => rw [hup] at h; cases h
      | some x => rw [hup] at h; cases h

/-- Two complete pads with the same first 1024 bytes are loaded into equal buffers. -/
theorem load_full (e : Env) (w : World) (p : String) (pf : PadFile)
    (hf : w.files p = some pf) (hl : 1024 ≤ pf.data.length) :
    load_device e ⟨p⟩ w = pf.data.take 1024 ∧ load_system e ⟨p⟩ w = pf.data.take 1024 := by
  constructor
  · exact fread_full _ _ ⟨p⟩ w pf hf (uninitialised_length _) hl
  · exact fread_full _ _ ⟨p⟩ w pf hf (uninitialised_length _) hl

/-! ## Whole runs -/

theorem compare_true_malloc (e : Env) (opts : t_pusb_options) (v : LibHalVolume) (u : String)
    (w : World) (m : String) (hm : v.mount_point = some m)
    (hc : (pusb_pad_compare e opts v u w).1 = true) :
    e.malloc_ok (device_path_size opts m u) = true ∧
      e.malloc_ok (system_path_size opts u) = true := by
  rw [pusb_pad_compare_true_iff] at hc
  obtain ⟨m2, h0, h1, _, _, h4, _, _, _⟩ := hc
  rw [hm] at h0
  cases h0
  exact ⟨h4, h1⟩

theorem data_at_congr (w w2 : World) (p : String) (h : w.files = w2.files) :
    data_at w p = data_at w2 p := by
  unfold data_at
  rw [h]

theorem fopen_wplus_exists (e : Env) (p : String) (w : World) (h : e.may_write p = true) :
    ∃ pf, (fopen e p OpenMode.wplus w).2.files p = some pf := by
  have := fopen_wplus_data e p w h
  unfold data_at at this
  cases hf : (fopen e p OpenMode.wplus w).2.files p with
  | none => rw [hf] at this; cases this
  | some pf => exact ⟨pf, rfl⟩

/-- Two pad files whose first 1024 bytes are there and agree pass the comparison,
whatever the stack held. -/
theorem compare_true_of_full_pads (e : Env) (opts : t_pusb_options) (v : LibHalVolume)
    (u : String) (w : World) (m : String) (pfd pfs : PadFile)
    (hm : v.mount_point = some m)
    (hms : e.malloc_ok (system_path_size opts u) = true)
    (hrs : e.may_read (system_path opts u) = true)
    (hmd : e.malloc_ok (device_path_size opts m u) = true)
    (hrd : e.may_read (device_path opts m u) = true)
    (hfs : w.files (system_path opts u) = some pfs)
    (hfd : w.files (device_path opts m u) = some pfd)
    (hls : 1024 ≤ pfs.data.length) (hld : 1024 ≤ pfd.data.length)
    (heq : pfs.data.take 1024 = pfd.data.take 1024) :
    (pusb_pad_compare e opts v u w).1 = true := by
  rw [pusb_pad_compare_true_iff]
  refine ⟨m, hm, hms, hrs, ⟨pfs, hfs⟩, hmd, hrd, ⟨pfd, hfd⟩, ?_⟩
  rw [(load_full e w _ pfs hfs hls).2, (load_full e w _ pfd hfd hld).1, heq]

/-- Two pad files holding the same bytes, 1024 at least, pass the comparison. -/
theorem compare_true_of_equal_pads (e : Env) (opts : t_pusb_options) (v : LibHalVolume)
    (u : String) (w : World) (m : String) (d : List Nat)
    (hm : v.mount_point = some m)
    (hms : e.malloc_ok (system_path_size opts u) = true)
    (hrs : e.may_read (system_path opts u) = true)
    (hmd : e.malloc_ok (device_path_size opts m u) = true)
    (hrd : e.may_read (device_path opts m u) = true)
    (hds : data_at w (system_path opts u) = some d)
    (hdd : data_at w (device_path opts m u) = some d)
    (hl : 1024 ≤ d.length) :
    (pusb_pad_compare e opts v u w).1 = true := by
  unfold data_at at hds hdd
  cases hfs : w.files (system_path opts u) with
  | none => rw [hfs] at hds; cases hds
  | some pfs =>
    cases hfd : w.files (device_path opts m u) with
    | none => rw [hfd] at hdd; cases hdd
    | some pfd =>
      rw [hfs] at hds
      rw [hfd] at hdd
      simp only [Option.map_some', Option.some.injEq] at hds hdd
      exact compare_true_of_full_pads e opts v u w m pfd pfs hm hms hrs hmd hrd hfs hfd
        (by rw [hds]; exact hl) (by rw [hdd]; exact hl) (by rw [hds, hdd])

/-- What a check does when the pads match, the user is known and the rotation goes
through. -/
theorem check_rotation_data (e : Env) (opts : t_pusb_options) (user : String) (w : World)
    (volume : LibHalVolume) (m : String) (pw : passwd)
    (hv : e.pusb_volume_get = some volume) (hm : volume.mount_point = some m)
    (hc : (pusb_pad_compare e opts volume user w).1 = true)
    (hwd : e.may_write (device_path opts m user) = true)
    (hws : e.may_write (system_path opts user) = true)
    (hu : e.getpwnam user = some pw)
    (hld : 1024 ≤ e.write_limit (device_path opts m user))
    (hls : 1024 ≤ e.write_limit (system_path opts user)) :
    (pusb_pad_check e opts user w).1 = some true ∧
    data_at (pusb_pad_check e opts user w).2 (device_path opts m user)
      = some (generate_magic e) ∧
    data_at (pusb_pad_check e opts user w).2 (system_path opts user)
      = some (generate_magic e) := by
  obtain ⟨hmd, hms⟩ := compare_true_malloc e opts volume user w m hm hc
  obtain ⟨h0, hd, hs⟩ := update_data e opts volume user
    (pusb_pad_compare e opts volume user w).2 m pw hm hmd hms hwd hws hu hld hls
  rw [check_match e opts user w volume hv hc]
  simp only
  rw [h0]
  exact ⟨rfl, hd, hs⟩

/-- What a check does when the pads match and the user is not known: the device pad is
opened for writing, which empties it, and the run ends without a verdict. -/
theorem check_unknown_user (e : Env) (opts : t_pusb_options) (user : String) (w : World)
    (volume : LibHalVolume) (m : String)
    (hv : e.pusb_volume_get = some volume) (hm : volume.mount_point = some m)
    (hc : (pusb_pad_compare e opts volume user w).1 = true)
    (hwd : e.may_write (device_path opts m user) = true)
    (hu : e.getpwnam user = none) :
    (pusb_pad_check e opts user w).1 = none ∧
    data_at (pusb_pad_check e opts user w).2 (device_path opts m user) = some [] ∧
    ∀ q, q ≠ device_path opts m user → (pusb_pad_check e opts user w).2.files q = w.files q := by
  obtain ⟨hmd, _⟩ := compare_true_malloc e opts volume user w m hm hc
  rw [check_match e opts user w volume hv hc,
    update_unknown_user e opts volume user _ m hm hmd hwd hu]
  refine ⟨rfl, fopen_wplus_data e _ _ hwd, ?_⟩
  intro q hq
  simp only
  rw [fopen_wplus_other e _ q _ hq]
  exact congrFun (pusb_pad_compare_files e opts volume user w) q

/-- For a user `getpwnam` finds, `pusb_pad_update` returns. -/
theorem update_returns_known (e : Env) (opts : t_pusb_options) (v : LibHalVolume) (u : String)
    (w : World) (pw : passwd) (hu : e.getpwnam u = some pw) :
    (pusb_pad_update e opts v u w).1 = some () := by
  unfold pusb_pad_update
  rcases pusb_pad_open_device e opts v u OpenMode.wplus w with ⟨fd, w1⟩
  cases fd with
  | none => rfl
  | some f_device =>
    simp only
    obtain ⟨b, hb⟩ := protect_known e u f_device w1 pw hu
    rw [hb]
    simp only
    rcases pusb_pad_open_system e opts u OpenMode.wplus (pusb_pad_protect e u f_device w1).2
      with ⟨fs, w3⟩
    cases fs with
    | none => rfl
    | some f_system =>
      simp only
      obtain ⟨c, hc⟩ := protect_known e u f_system w3 pw hu
      rw [hc]

/-- For a user `getpwnam` finds, `pusb_pad_check` returns, and what it returns is the
result of the comparison. -/
theorem check_verdict_known_user (e : Env) (opts : t_pusb_options) (u : String) (w : World)
    (v : LibHalVolume) (pw : passwd) (hv : e.pusb_volume_get = some v)
    (hu : e.getpwnam u = some pw) :
    (pusb_pad_check e opts u w).1 = some (pusb_pad_compare e opts v u w).1 := by
  cases hc : (pusb_pad_compare e opts v u w).1 with
  | false => rw [check_mismatch e opts u w v hv hc]
  | true =>
    rw [check_match e opts u w v hv hc]
    simp only
    rw [update_returns_known e opts v u _ pw hu]
    rfl

/-- For a user `getpwnam` finds: when the pads match and the system pad cannot be opened
for writing after the device pad was, the check returns true, the device pad is left
empty and the system pad as it was. -/
theorem check_system_closed_known_user (e : Env) (opts : t_pusb_options) (user : String)
    (w : World) (volume : LibHalVolume) (m : String) (pw : passwd)
    (hv : e.pusb_volume_get = some volume) (hm : volume.mount_point = some m)
    (hc : (pusb_pad_compare e opts volume user w).1 = true)
    (hwd : e.may_write (device_path opts m user) = true)
    (hws : e.may_write (system_path opts user) = false)
    (hu : e.getpwnam user = some pw) :
    (pusb_pad_check e opts user w).1 = some true ∧
    data_at (pusb_pad_check e opts user w).2 (device_path opts m user) = some [] ∧
    (pusb_pad_check e opts user w).2.files (system_path opts user)
      = w.files (system_path opts user) := by
  obtain ⟨hmd, _⟩ := compare_true_malloc e opts volume user w m hm hc
  obtain ⟨h0, hf⟩ := update_system_closed e opts volume user
    (pusb_pad_compare e opts volume user w).2 m pw hm hmd hwd hws hu
  have hne : system_path opts user ≠ device_path opts m user := by
    intro heq
    rw [heq, hwd] at hws
    cases hws
  rw [check_match e opts user w volume hv hc]
  simp only
  rw [h0]
  refine ⟨rfl, ?_, ?_⟩
  · rw [data_at_congr _ _ _ hf]
    exact after_device_data e opts m user _ hwd
  · rw [hf, after_device_other e opts m user _ _ hne]
    exact congrFun (pusb_pad_compare_files e opts volume user w) _

theorem compare_env0_world0 : (pusb_pad_compare env0 opts0 vol0 "alice" world0).1 = true := by
  decide

/-! # The claims -/

/-! ## C1: the verdict -/

/-- C1, the run that fails: the user is not in the password database.  The volume is
found, both pad files are opened for reading and the two loaded buffers are equal, yet
`pusb_pad_check` returns no verdict: the run ends in `pusb_pad_protect`, after the
device pad file was emptied and before the system pad file was touched. -/
theorem check_no_verdict_for_unknown_user :
    env_nouser.getpwnam "alice" = none ∧
    env_nouser.pusb_volume_get = some vol0 ∧
    (pusb_pad_open_system env_nouser opts0 "alice" OpenMode.r world0).1
      = some ⟨system_path opts0 "alice"⟩ ∧
    (pusb_pad_open_device env_nouser opts0 vol0 "alice" OpenMode.r world0).1
      = some ⟨device_path opts0 "/media/usb" "alice"⟩ ∧
    load_system env_nouser ⟨system_path opts0 "alice"⟩ world0
      = load_device env_nouser ⟨device_path opts0 "/media/usb" "alice"⟩ world0 ∧
    (pusb_pad_check env_nouser opts0 "alice" world0).1 = none ∧
    data_at (pusb_pad_check env_nouser opts0 "alice" world0).2
      (device_path opts0 "/media/usb" "alice") = some [] ∧
    (pusb_pad_check env_nouser opts0 "alice" world0).2.files (system_path opts0 "alice")
      = world0.files (system_path opts0 "alice") := by
  have hc : (pusb_pad_compare env_nouser opts0 vol0 "alice" world0).1 = true := by decide
  obtain ⟨h1, h2, h3⟩ := check_unknown_user env_nouser opts0 "alice" world0 vol0 "/media/usb"
    rfl rfl hc (by decide) rfl
  have heq : load_system env_nouser ⟨system_path opts0 "alice"⟩ world0
      = load_device env_nouser ⟨device_path opts0 "/media/usb" "alice"⟩ world0 := by
    obtain ⟨m, hm, _, _, _, _, _, _, h⟩ :=
      (pusb_pad_compare_true_iff env_nouser opts0 vol0 "alice" world0).mp hc
    cases hm
    exact h
  exact ⟨rfl, rfl, by decide, by decide, heq, h1, h2, h3 _ (by decide)⟩

/-! ## C2: the comparison -/

/-- C2: when both pad files are opened and each delivers a full 1024-byte buffer (`A` from
the device, `B` from the system), `pusb_pad_compare` returns 1 exactly when every byte of
`A` equals the byte of `B` at the same index, and returns 0 as soon as one index below
1024 holds different bytes. -/
theorem pusb_pad_compare_full_buffers (e : Env) (opts : t_pusb_options) (volume : LibHalVolume)
    (user : String) (w : World) (m : String) (pfd pfs : PadFile) (A B : List Nat)
    (hv : volume.mount_point = some m)
    (hms : e.malloc_ok (system_path_size opts user) = true)
    (hrs : e.may_read (system_path opts user) = true)
    (hfs : w.files (system_path opts user) = some pfs)
    (hmd : e.malloc_ok (device_path_size opts m user) = true)
    (hrd : e.may_read (device_path opts m user) = true)
    (hfd : w.files (device_path opts m user) = some pfd)
    (hA : pfd.data.take 1024 = A) (hB : pfs.data.take 1024 = B)
    (hlA : A.length = 1024) (hlB : B.length = 1024) :
    load_device e ⟨device_path opts m user⟩ w = A ∧
    load_system e ⟨system_path opts user⟩ w = B ∧
    ((pusb_pad_compare e opts volume user w).1 = true ↔ ∀ i, i < 1024 → A[i]? = B[i]?) ∧
    ((∃ i, i < 1024 ∧ A[i]? ≠ B[i]?) → (pusb_pad_compare e opts volume user w).1 = false) := by
  have hld : 1024 ≤ pfd.data.length := by
    rw [← hA, List.length_take] at hlA
    omega
  have hls : 1024 ≤ pfs.data.length := by
    rw [← hB, List.length_take] at hlB
    omega
  have lA : load_device e ⟨device_path opts m user⟩ w = A :=
    ((load_full e w _ pfd hfd hld).1).trans hA
  have lB : load_system e ⟨system_path opts user⟩ w = B :=
    ((load_full e w _ pfs hfs hls).2).trans hB
  have main : (pusb_pad_compare e opts volume user w).1 = true ↔ ∀ i, i < 1024 → A[i]? = B[i]? := by
    rw [pusb_pad_compare_true_iff]
    constructor
    · rintro ⟨m2, hv2, _, _, _, _, _, _, heq⟩
      rw [hv] at hv2
      cases hv2
      rw [lA, lB] at heq
      intro i _
      rw [heq]
    · intro h
      refine ⟨m, hv, hms, hrs, ⟨pfs, hfs⟩, hmd, hrd, ⟨pfd, hfd⟩, ?_⟩
      rw [lA, lB]
      apply List.ext_getElem?
      intro i
      by_cases hi : i < 1024
      · exact (h i hi).symm
      · rw [List.getElem?_eq_none (by omega), List.getElem?_eq_none (by omega)]
  refine ⟨lA, lB, main, ?_⟩
  rintro ⟨i, hi, hne⟩
  cases hc : (pusb_pad_compare e opts volume user w).1 with
  | false => rfl
  | true => exact absurd (main.mp hc i hi) hne

/-- C2, scenario B: the system pad differs from the device pad in byte 0 only; the
comparison reports a mismatch. -/
theorem pusb_pad_compare_full_buffers_witness :
    (List.replicate 1024 0).length = 1024 ∧ (1 :: List.replicate 1023 0).length = 1024 ∧
    load_device env0 ⟨device_path opts0 "/media/usb" "alice"⟩ world_mismatch
      = List.replicate 1024 0 ∧
    load_system env0 ⟨system_path opts0 "alice"⟩ world_mismatch
      = 1 :: List.replicate 1023 0 ∧
    ((pusb_pad_compare env0 opts0 vol0 "alice" world_mismatch).1 = true ↔
      ∀ i, i < 1024 → (List.replicate 1024 0)[i]? = (1 :: List.replicate 1023 0)[i]?) ∧
    ((∃ i, i < 1024 ∧ (List.replicate 1024 0)[i]? ≠ (1 :: List.replicate 1023 0)[i]?) →
      (pusb_pad_compare env0 opts0 vol0 "alice" world_mismatch).1 = false) :=
  ⟨by decide, by decide,
    pusb_pad_compare_full_buffers env0 opts0 vol0 "alice" world_mismatch "/media/usb"
      zero_pad { zero_pad with data := 1 :: List.replicate 1023 0 }
      (List.replicate 1024 0) (1 :: List.replicate 1023 0)
      rfl (by decide) (by decide) (by decide) (by decide) (by decide) (by decide)
      (by decide) (by decide) (by decide) (by decide)⟩

/-! ## C3: what a match says about the files -/

/-- C3, counterexample: the device pad file is one byte longer than the system pad file,
yet `pusb_pad_check` returns true. -/
theorem check_true_on_different_files :
    (pusb_pad_check env0 opts0 "alice" world_long).1 = some true ∧
    data_at world_long (device_path opts0 "/media/usb" "alice")
      ≠ data_at world_long (system_path opts0 "alice") := by
  decide

/-- C3 (as amended): `pusb_pad_check` returns true only if both pad files exist and, when
each holds at least 1024 bytes, their first 1024 bytes are the same; pad files of exactly
1024 bytes are then byte-identical. -/
theorem pusb_pad_check_true_first_bytes (e : Env) (opts : t_pusb_options) (user : String)
    (w : World) (h : (pusb_pad_check e opts user w).1 = some true) :
    ∃ volume m pfd pfs,
      e.pusb_volume_get = some volume ∧ volume.mount_point = some m ∧
      w.files (device_path opts m user) = some pfd ∧
      w.files (system_path opts user) = some pfs ∧
      (1024 ≤ pfd.data.length → 1024 ≤ pfs.data.length →
        pfd.data.take 1024 = pfs.data.take 1024) ∧
      (pfd.data.length = 1024 → pfs.data.length = 1024 → pfd.data = pfs.data) := by
  obtain ⟨v, hv, hc⟩ := check_true_compare e opts user w h
  rw [pusb_pad_compare_true_iff] at hc
  obtain ⟨m, h0, _, _, ⟨pfs, hfs⟩, _, _, ⟨pfd, hfd⟩, heq⟩ := hc
  have pre : 1024 ≤ pfd.data.length → 1024 ≤ pfs.data.length →
      pfd.data.take 1024 = pfs.data.take 1024 := by
    intro hld hls
    rw [(load_full e w _ pfd hfd hld).1, (load_full e w _ pfs hfs hls).2] at heq
    exact heq.symm
  refine ⟨v, m, pfd, pfs, hv, h0, hfd, hfs, pre, ?_⟩
  intro hld hls
  have := pre (le_of_eq hld.symm) (le_of_eq hls.symm)
  rw [List.take_of_length_le (le_of_eq hld), List.take_of_length_le (le_of_eq hls)] at this
  exact this

/-- C3, scenario A: two pads of 1024 zero bytes. -/
theorem pusb_pad_check_true_first_bytes_witness :
    (pusb_pad_check env0 opts0 "alice" world0).1 = some true ∧
    ∃ volume m pfd pfs,
      env0.pusb_volume_get = some volume ∧ volume.mount_point = some m ∧
      world0.files (device_path opts0 m "alice") = some pfd ∧
      world0.files (system_path opts0 "alice") = some pfs ∧
      (1024 ≤ pfd.data.length → 1024 ≤ pfs.data.length →
        pfd.data.take 1024 = pfs.data.take 1024) ∧
      (pfd.data.length = 1024 → pfs.data.length = 1024 → pfd.data = pfs.data) :=
  ⟨by decide, pusb_pad_check_true_first_bytes env0 opts0 "alice" world0 (by decide)⟩

/-! ## C4: a failed check and its repetition -/

/-- C4, the run that fails: the device pad file is empty, the system pad file holds
1024 zero bytes.  A first call, with the bytes 0xff left on the stack, returns false and
changes no file; the call repeated on that very state, with zero bytes left on the
stack, returns true. -/
theorem repeated_check_gives_another_result :
    (pusb_pad_check env_stale opts0 "alice" world_empty_device).1 = some false ∧
    (pusb_pad_check env_stale opts0 "alice" world_empty_device).2.files
      = world_empty_device.files ∧
    (pusb_pad_check { env_stale with stack_device := fun _ => 0 } opts0 "alice"
      (pusb_pad_check env_stale opts0 "alice" world_empty_device).2).1 = some true := by
  have h1 : (pusb_pad_check env_stale opts0 "alice" world_empty_device).1 = some false := by
    decide
  exact ⟨h1, check_false_files env_stale opts0 "alice" world_empty_device h1, by decide⟩

/-! ## C5: a completed rotation -/

/-- C5: in every run of `pusb_pad_check` in which the pads match and the rotation is
completed (the call returns, both pad files are opened for writing and both writes are
complete), the verdict is true and afterwards the device pad file and the system pad
file hold the same bytes: exactly the 1024 bytes of the freshly generated buffer, nothing
of the old content. -/
theorem pusb_pad_check_rotates (e : Env) (opts : t_pusb_options) (user : String) (w : World)
    (volume : LibHalVolume) (m : String)
    (hv : e.pusb_volume_get = some volume) (hm : volume.mount_point = some m)
    (hc : (pusb_pad_compare e opts volume user w).1 = true)
    (hret : (pusb_pad_check e opts user w).1 ≠ none)
    (hwd : e.may_write (device_path opts m user) = true)
    (hws : e.may_write (system_path opts user) = true)
    (hld : 1024 ≤ e.write_limit (device_path opts m user))
    (hls : 1024 ≤ e.write_limit (system_path opts user)) :
    (pusb_pad_check e opts user w).1 = some true ∧
    data_at (pusb_pad_check e opts user w).2 (device_path opts m user)
      = some (generate_magic e) ∧
    data_at (pusb_pad_check e opts user w).2 (system_path opts user)
      = some (generate_magic e) ∧
    data_at (pusb_pad_check e opts user w).2 (device_path opts m user)
      = data_at (pusb_pad_check e opts user w).2 (system_path opts user) ∧
    (generate_magic e).length = 1024 := by
  cases hu : e.getpwnam user with
  | none =>
    exact absurd (check_unknown_user e opts user w volume m hv hm hc hwd hu).1 hret
  | some pw =>
    obtain ⟨h1, hd, hs⟩ :=
      check_rotation_data e opts user w volume m pw hv hm hc hwd hws hu hld hls
    exact ⟨h1, hd, hs, hd.trans hs.symm, generate_magic_length e⟩

/-- C5, scenario A: two pads of 1024 zero bytes are replaced by the generated pad. -/
theorem pusb_pad_check_rotates_witness :
    (pusb_pad_compare env0 opts0 vol0 "alice" world0).1 = true ∧
    (pusb_pad_check env0 opts0 "alice" world0).1 ≠ none ∧
    (pusb_pad_check env0 opts0 "alice" world0).1 = some true ∧
    data_at (pusb_pad_check env0 opts0 "alice" world0).2 (device_path opts0 "/media/usb" "alice")
      = some (generate_magic env0) ∧
    data_at (pusb_pad_check env0 opts0 "alice" world0).2 (system_path opts0 "alice")
      = some (generate_magic env0) ∧
    data_at (pusb_pad_check env0 opts0 "alice" world0).2 (device_path opts0 "/media/usb" "alice")
      = data_at (pusb_pad_check env0 opts0 "alice" world0).2 (system_path opts0 "alice") ∧
    (generate_magic env0).length = 1024 :=
  ⟨by decide, by decide,
    pusb_pad_check_rotates env0 opts0 "alice" world0 vol0 "/media/usb" rfl rfl
      (by decide) (by decide) (by decide) (by decide) (by decide) (by decide)⟩

/-! ## C6: the device pad cannot be written -/

/-- C7, counterexample: on a volume whose file system refuses `fchown`, the store goes
through (both files hold the new pad) although the device pad file still belongs to
root and is readable by group and others. -/
theorem store_without_protection :
    env_vfat.getpwnam "alice" = some { pw_uid := 1000, pw_gid := 1000 } ∧
    (pusb_pad_update env_vfat opts0 vol0 "alice" world0).1 = some () ∧
    data_at (pusb_pad_update env_vfat opts0 vol0 "alice" world0).2
      (device_path opts0 "/media/usb" "alice") = some (generate_magic env_vfat) ∧
    data_at (pusb_pad_update env_vfat opts0 vol0 "alice" world0).2
      (system_path opts0 "alice") = some (generate_magic env_vfat) ∧
    meta_at (pusb_pad_update env_vfat opts0 vol0 "alice" world0).2
      (device_path opts0 "/media/usb" "alice") = some (0, 0, 0o644) := by
  obtain ⟨h0, hd, hs⟩ := update_data env_vfat opts0 vol0 "alice" world0 "/media/usb"
    { pw_uid := 1000, pw_gid := 1000 } rfl
    (by decide) (by decide) (by decide) (by decide) (by decide) (by decide) (by decide)
  exact ⟨by decide, h0, hd, hs, by decide⟩

/-- C7 (as amended): when `pusb_pad_update` opens both pad files for writing and, in
addition, the user is found by `getpwnam` and `fchown` and `fchmod` succeed on both
files, then `pusb_pad_update` returns and afterwards both pad files belong to the uid
and gid of the user and have mode 0600. -/
theorem pusb_pad_update_protected (e : Env) (opts : t_pusb_options) (volume : LibHalVolume)
    (user : String) (w : World) (m : String) (pw : passwd)
    (hm : volume.mount_point = some m)
    (hmd : e.malloc_ok (device_path_size opts m user) = true)
    (hms : e.malloc_ok (system_path_size opts user) = true)
    (hwd : e.may_write (device_path opts m user) = true)
    (hws : e.may_write (system_path opts user) = true)
    (hu : e.getpwnam user = some pw)
    (hod : e.fchown_ok (device_path opts m user) = true)
    (hcd : e.fchmod_ok (device_path opts m user) = true)
    (hos : e.fchown_ok (system_path opts user) = true)
    (hcs : e.fchmod_ok (system_path opts user) = true) :
    (pusb_pad_update e opts volume user w).1 = some () ∧
    meta_at (pusb_pad_update e opts volume user w).2 (device_path opts m user)
      = some (pw.pw_uid, pw.pw_gid, 0o600) ∧
    meta_at (pusb_pad_update e opts volume user w).2 (system_path opts user)
      = some (pw.pw_uid, pw.pw_gid, 0o600) := by
  rw [update_both_open e opts volume user w m pw hm hmd hms hwd hws hu]
  refine ⟨rfl, ?_⟩
  simp only [fwrite_meta]
  have hs : meta_at (after_system e opts m user w) (system_path opts user)
      = some (pw.pw_uid, pw.pw_gid, 0o600) := by
    unfold after_system
    obtain ⟨pf, hpf⟩ := fopen_wplus_exists e (system_path opts user)
      (after_device e opts m user w) hws
    exact protect_meta_ok_path e user _ _ pw pf hu hos hcs hpf
  have hd0 : meta_at (after_device e opts m user w) (device_path opts m user)
      = some (pw.pw_uid, pw.pw_gid, 0o600) := by
    unfold after_device
    obtain ⟨pf, hpf⟩ := fopen_wplus_exists e (device_path opts m user) w hwd
    exact protect_meta_ok_path e user _ _ pw pf hu hod hcd hpf
  refine ⟨?_, hs⟩
  by_cases hq : device_path opts m user = system_path opts user
  · have key : ∀ q, q = system_path opts user →
        meta_at (after_system e opts m user w) q = some (pw.pw_uid, pw.pw_gid, 0o600) := by
      intro q hq2
      rw [hq2]
      exact hs
    exact key _ hq
  · unfold after_system
    rw [protect_meta_other_path e user _ _ _ hq]
    unfold meta_at
    rw [fopen_wplus_other e _ _ _ hq]
    exact hd0

/-- C7: on a healthy system both pads end up with owner 1000, group 1000, mode 0600. -/
theorem pusb_pad_update_protected_witness :
    env0.getpwnam "alice" = some { pw_uid := 1000, pw_gid := 1000 } ∧
    (pusb_pad_update env0 opts0 vol0 "alice" world0).1 = some () ∧
    meta_at (pusb_pad_update env0 opts0 vol0 "alice" world0).2
      (device_path opts0 "/media/usb" "alice") = some (1000, 1000, 0o600) ∧
    meta_at (pusb_pad_update env0 opts0 vol0 "alice" world0).2
      (system_path opts0 "alice") = some (1000, 1000, 0o600) :=
  ⟨by decide, pusb_pad_update_protected env0 opts0 vol0 "alice" world0 "/media/usb"
    { pw_uid := 1000, pw_gid := 1000 } rfl (by decide) (by decide) (by decide) (by decide)
    (by decide) (by decide) (by decide) (by decide) (by decide)⟩

/-! ## C8: the generated pad -/

/-- C8, counterexample: two checks of one process within one second.  Both succeed, and
the second rotation writes the very pad the first one wrote. -/
theorem pad_repeats_within_one_second :
    (pusb_pad_check env0 opts0 "alice" world0).1 = some true ∧
    data_at (pusb_pad_check env0 opts0 "alice" world0).2
      (device_path opts0 "/media/usb" "alice") = some (generate_magic env0) ∧
    (pusb_pad_check env0 opts0 "alice" (pusb_pad_check env0 opts0 "alice" world0).2).1
      = some true ∧
    data_at (pusb_pad_check env0 opts0 "alice" (pusb_pad_check env0 opts0 "alice" world0).2).2
      (device_path opts0 "/media/usb" "alice") = some (generate_magic env0) ∧
    data_at (pusb_pad_check env0 opts0 "alice" (pusb_pad_check env0 opts0 "alice" world0).2).2
      (system_path opts0 "alice") = some (generate_magic env0) := by
  obtain ⟨a1, a2, a3⟩ := check_rotation_data env0 opts0 "alice" world0 vol0 "/media/usb"
    { pw_uid := 1000, pw_gid := 1000 } rfl rfl
    compare_env0_world0 (by decide) (by decide) (by decide) (by decide) (by decide)
  have hc2 : (pusb_pad_compare env0 opts0 vol0 "alice"
      (pusb_pad_check env0 opts0 "alice" world0).2).1 = true :=
    compare_true_of_equal_pads env0 opts0 vol0 "alice" _ "/media/usb" (generate_magic env0) rfl
      (by decide) (by decide) (by decide) (by decide) a3 a2
      (le_of_eq (generate_magic_length env0).symm)
  obtain ⟨b1, b2, b3⟩ := check_rotation_data env0 opts0 "alice" _ vol0 "/media/usb"
    { pw_uid := 1000, pw_gid := 1000 } rfl rfl
    hc2 (by decide) (by decide) (by decide) (by decide) (by decide)
  exact ⟨a1, a2, b1, b2, b3⟩

/-- C8 (as amended): the pad generated in `pusb_pad_update` is 1024 bytes, byte `i` being
the `i`-th value of `rand()` after `srand(getpid() * time(NULL))` truncated to a byte; it
is a function of that seed, so two rotations whose seeds agree modulo 2^32 (as for one
process within one second) generate the same pad, and two pads differ only when the
seeds differ. -/
theorem generate_magic_seed (e1 e2 : Env) (hr : e1.rand = e2.rand)
    (hs : (e1.getpid * e1.time) % 2 ^ 32 = (e2.getpid * e2.time) % 2 ^ 32) :
    generate_magic e1 = generate_magic e2 ∧
    (generate_magic e1).length = 1024 ∧
    ∀ i, i < 1024 →
      (generate_magic e1)[i]? = some (e1.rand ((e1.getpid * e1.time) % 2 ^ 32) i % 256) := by
  refine ⟨?_, generate_magic_length e1, ?_⟩
  · unfold generate_magic pad_seed
    rw [hr, hs]
  · intro i hi
    unfold generate_magic pad_seed sizeof_magic
    rw [List.getElem?_map, List.getElem?_range hi]
    rfl

/-- C8: process 65536 generates the same pad at two times 65536 seconds apart. -/
theorem generate_magic_seed_witness :
    (env_pid.getpid * env_pid.time) % 2 ^ 32
      = (env_pid.getpid * (env_pid.time + 65536)) % 2 ^ 32 ∧
    generate_magic env_pid = generate_magic { env_pid with time := env_pid.time + 65536 } ∧
    (generate_magic env_pid).length = 1024 ∧
    ∀ i, i < 1024 →
      (generate_magic env_pid)[i]?
        = some (env_pid.rand ((env_pid.getpid * env_pid.time) % 2 ^ 32) i % 256) :=
  ⟨by decide, generate_magic_seed env_pid { env_pid with time := env_pid.time + 65536 } rfl
    (by decide)⟩

/-! ## C9: the two paths -/

/-- C9: the path given to `fopen` by `pusb_pad_open_device` is the mount point, `/`, the
device pad directory, `/`, the user, `.`, the host name and `.pad`; the one given by
`pusb_pad_open_system` is the system pad directory, `/`, the user, `.`, the device name
and `.pad`.  Each `path_size` is the length of that text plus one, so `snprintf` cuts
nothing off, and the `fopen` call is logged with exactly that path.  Without a mount
point `pusb_pad_open_device` returns no stream and leaves the world, the log of `fopen`
calls included, as it was. -/
theorem pad_paths_exact (e : Env) (opts : t_pusb_options) (user mnt_point : String)
    (mode : OpenMode) (w : World) :
    device_path opts mnt_point user
      = mnt_point ++ "/" ++ opts.device_pad_directory ++ "/" ++ user ++ "."
          ++ opts.hostname ++ ".pad" ∧
    device_path_size opts mnt_point user
      = (mnt_point ++ "/" ++ opts.device_pad_directory ++ "/" ++ user ++ "."
          ++ opts.hostname ++ ".pad").length + 1 ∧
    system_path opts user
      = opts.system_pad_directory ++ "/" ++ user ++ "." ++ opts.device.name ++ ".pad" ∧
    system_path_size opts user
      = (opts.system_pad_directory ++ "/" ++ user ++ "." ++ opts.device.name
          ++ ".pad").length + 1 ∧
    pusb_pad_open_device e opts { mount_point := some mnt_point } user mode w
      = (if e.malloc_ok (device_path_size opts mnt_point user) then
          fopen e (mnt_point ++ "/" ++ opts.device_pad_directory ++ "/" ++ user ++ "."
            ++ opts.hostname ++ ".pad") mode w
        else (none, w)) ∧
    pusb_pad_open_system e opts user mode w
      = (if e.malloc_ok (system_path_size opts user) then
          fopen e (opts.system_pad_directory ++ "/" ++ user ++ "." ++ opts.device.name
            ++ ".pad") mode w
        else (none, w)) ∧
    (fopen e (device_path opts mnt_point user) mode w).2.fopen_log
      = w.fopen_log ++ [(mnt_point ++ "/" ++ opts.device_pad_directory ++ "/" ++ user ++ "."
          ++ opts.hostname ++ ".pad", mode)] ∧
    (fopen e (system_path opts user) mode w).2.fopen_log
      = w.fopen_log ++ [(opts.system_pad_directory ++ "/" ++ user ++ "."
          ++ opts.device.name ++ ".pad", mode)] ∧
    pusb_pad_open_device e opts { mount_point := none } user mode w = (none, w) := by
  have hd : device_path opts mnt_point user = device_path_format opts mnt_point user :=
    device_path_eq opts mnt_point user
  have hs : system_path opts user = system_path_format opts user := system_path_eq opts user
  refine ⟨hd, device_path_size_eq opts mnt_point user, hs, system_path_size_eq opts user,
    ?_, ?_, ?_, ?_, rfl⟩
  · unfold pusb_pad_open_device
    simp only [hd]
    rfl
  · unfold pusb_pad_open_system
    simp only [hs]
    rfl
  · rw [fopen_log_eq, hd]
    rfl
  · rw [fopen_log_eq, hs]
    rfl

/-! ## C10: the system pad cannot be written -/

/-- C10, the run that fails: the pads match, the device pad file can be opened for
writing, the system pad file cannot, and the user is not in the password database.  The
device pad file is left empty and the system pad file as it was, but `pusb_pad_check`
returns no verdict: the run ends in `pusb_pad_protect`, between the two opens. -/
theorem check_no_verdict_system_not_writable :
    env_nouser_sys_ro.getpwnam "alice" = none ∧
    (pusb_pad_compare env_nouser_sys_ro opts0 vol0 "alice" world0).1 = true ∧
    env_nouser_sys_ro.may_write (device_path opts0 "/media/usb" "alice") = true ∧
    env_nouser_sys_ro.may_write (system_path opts0 "alice") = false ∧
    (pusb_pad_check env_nouser_sys_ro opts0 "alice" world0).1 = none ∧
    data_at (pusb_pad_check env_nouser_sys_ro opts0 "alice" world0).2
      (device_path opts0 "/media/usb" "alice") = some [] ∧
    (pusb_pad_check env_nouser_sys_ro opts0 "alice" world0).2.files (system_path opts0 "alice")
      = world0.files (system_path opts0 "alice") := by
  have hc : (pusb_pad_compare env_nouser_sys_ro opts0 vol0 "alice" world0).1 = true := by
    decide
  obtain ⟨h1, h2, h3⟩ := check_unknown_user env_nouser_sys_ro opts0 "alice" world0 vol0
    "/media/usb" rfl rfl hc (by decide) rfl
  exact ⟨rfl, hc, by decide, by decide, h1, h2, h3 _ (by decide)⟩

end PamUsb
